import Mathlib

/- Shallow embedding of the fair-price estimation and investment-scoring
pipeline of a real-estate dashboard.  Python floats are modelled as
rationals, nullable attributes as `Option`, and Python truthiness (where
`not x` is true on both `None` and `0`) is made explicit in every guard
that the source writes with a bare `not`/`and` on a value. -/

/-- Mirrors the `Property` dataclass in `models/property.py`: one real-estate
listing with its nullable attributes. -/
structure Property where
  property_id : ℤ
  price : ℚ
  fair_price : ℚ
  property_type : String
  living_area : ℚ
  bedrooms : Option ℤ
  bathrooms : Option ℚ
  year_built : Option ℤ
  lot_size : Option ℚ
  latitude : ℚ
  longitude : ℚ
  zestimate : Option ℚ
  rent_estimate : Option ℚ
  tax_assessed_value : Option ℚ
  tax_rate : Option ℚ
  monthly_hoa : Option ℚ
  address : String
  city : String
  state : String
  zipcode : String
  county : Option String

/-- Mirrors the `InvestmentScore` dataclass in `models/property.py`. -/
structure InvestmentScore where
  property : Property
  total_score : ℚ
  roi_score : ℚ
  location_score : ℚ
  condition_score : ℚ
  market_score : ℚ
  risk_score : ℚ

/-- Builds a `Property` from the attributes the scoring pipeline reads,
fixing the attributes it never touches. -/
def mkProperty (price : ℚ) (pt : String) (yb : Option ℤ)
    (z rent hoa : Option ℚ) : Property :=
  { property_id := 1, price := price, fair_price := price, property_type := pt,
    living_area := 1000, bedrooms := none, bathrooms := none, year_built := yb,
    lot_size := none, latitude := 0, longitude := 0, zestimate := z,
    rent_estimate := rent, tax_assessed_value := none, tax_rate := none,
    monthly_hoa := hoa, address := "a", city := "b", state := "c",
    zipcode := "d", county := none }

/-- The `statistics.mean` of a list of numbers, as used by the scoring code. -/
def mean (l : List ℚ) : ℚ := l.sum / (l.length : ℚ)

/-- Mirrors `ScoringService.calculate_roi_score` in
`services/scoring_service.py`.  The Python guard
`not property.rent_estimate or not property.price` is true when
`rent_estimate` is `None` or `0`, or when `price` is `0`. -/
def calculate_roi_score (p : Property) : ℚ :=
  match p.rent_estimate with
  | none => 0
  | some rent =>
    if rent = 0 ∨ p.price = 0 then 0
    else
      let annual_rent := rent * 12
      let operating_expenses := annual_rent * (4/10)
      let net_roi := ((annual_rent - operating_expenses) / p.price) * 100
      min 10 net_roi

/-- Mirrors `ScoringService.calculate_location_score`: a constant placeholder. -/
def calculate_location_score (_p : Property) : ℚ := 7

/-- Mirrors `ScoringService.calculate_condition_score`.  The guard
`not property.year_built` is true on `None` and on `0`; the guard
`property.zestimate and property.price` requires both non-`None` and
nonzero. -/
def calculate_condition_score (p : Property) : ℚ :=
  match p.year_built with
  | none => 5
  | some yb =>
    if yb = 0 then 5
    else
      let age : ℚ := 2024 - (yb : ℚ)
      let age_score := max 0 (10 - age / 10)
      match p.zestimate with
      | some zest =>
        if zest ≠ 0 ∧ p.price ≠ 0 then
          let condition_factor := zest / p.price
          let condition_score := 10 * min (12/10) (max (8/10) condition_factor)
          mean [age_score, condition_score]
        else age_score
      | none => age_score

/-- Mirrors `ScoringService.calculate_market_score`: a constant placeholder. -/
def calculate_market_score (_p : Property) : ℚ := 6

/-- The vacancy-risk dictionary lookup in
`ScoringService.calculate_risk_score`, with its `.get(property_type, 5)`
default.  The keys are title-case strings, exactly as in the source. -/
def vacancy_risk (pt : String) : ℚ :=
  if pt = "Single Family" then 8
  else if pt = "Multi Family" then 7
  else if pt = "Apartment" then 6
  else if pt = "Retail" then 5
  else if pt = "Office" then 4
  else if pt = "Industrial" then 6
  else if pt = "Land" then 3
  else 5

/-- Mirrors `ScoringService.calculate_risk_score`: the price-volatility
factor is appended only when `zestimate` and `price` are truthy, then the
vacancy-risk lookup and the constant market risk are always appended, and
the mean is taken (the empty-list default 5.0 is kept for fidelity even
though the list is never empty). -/
def calculate_risk_score (p : Property) : ℚ :=
  let price_factors : List ℚ :=
    match p.zestimate with
    | some zest =>
      if zest ≠ 0 ∧ p.price ≠ 0 then [10 - (|zest - p.price| / p.price) * 100]
      else []
    | none => []
  let risk_factors := price_factors ++ [vacancy_risk p.property_type, 6]
  if risk_factors.isEmpty then 5 else mean risk_factors

/-- Mirrors `ScoringService.score_property`: five sub-scores combined with
the fixed weights and scaled by 10. -/
def score_property (p : Property) : InvestmentScore :=
  let roi_score := calculate_roi_score p
  let location_score := calculate_location_score p
  let condition_score := calculate_condition_score p
  let market_score := calculate_market_score p
  let risk_score := calculate_risk_score p
  let total_score :=
    (roi_score * (35/100) + location_score * (25/100) +
      condition_score * (15/100) + market_score * (15/100) +
      risk_score * (10/100)) * 10
  { property := p, total_score := total_score, roi_score := roi_score,
    location_score := location_score, condition_score := condition_score,
    market_score := market_score, risk_score := risk_score }

/-- Mirrors `ScoringService.score_properties`: a list comprehension applying
`score_property` to each record in order. -/
def score_properties (ps : List Property) : List InvestmentScore :=
  ps.map score_property

/-- Mirrors `numpy.clip` as used by `_validate_predictions`: values below the
lower bound become the lower bound, values above the upper bound become the
upper bound (the maximum is applied first, then the minimum). -/
def clip (x lo hi : ℚ) : ℚ := min hi (max lo x)

/-- Mirrors `PredictionService._validate_predictions` in
`services/prediction_service.py`: if the two arrays differ in length the
raised ValueError is caught by the method's own handler, which returns the
original predictions; otherwise each prediction is clipped to
[0.5 x price, 1.5 x price]. -/
def validate_predictions (predictions actual_prices : List ℚ) : List ℚ :=
  if predictions.length ≠ actual_prices.length then predictions
  else
    List.zipWith (fun pred price => clip pred (price * (1/2)) (price * (3/2)))
      predictions actual_prices

/-- Mirrors `PredictionService.predict_fair_price` in
`services/prediction_service.py`, abstracting the numeric stages.
`model = none` models a failed model load (`self.model is None`);
`some (Except.error e)` models any of the feature-selection, imputation,
PCA, or model-inference stages raising; `some (Except.ok preds)` models the
raw prediction vector those stages produce.  `noise i` is the i-th draw of
the multiplicative jitter (the source draws exactly one per prediction).
The final clamp `_validate_predictions` is applied last, after the jitter.
Every failure path (`None` model, a raised stage, the length-mismatch
ValueError) ends in the catch-all that returns the input price column. -/
def predict_fair_price (model : Option (Except String (List ℚ)))
    (noise : ℕ → ℚ) (prices : List ℚ) : List ℚ :=
  match model with
  | none => prices
  | some raw =>
    match raw with
    | Except.error _ => prices
    | Except.ok predictions =>
      if predictions.length ≠ prices.length then prices
      else
        let preds1 := predictions.map (fun x => max x 0)
        let preds2 :=
          List.zipWith (fun x y => x * y) preds1
            ((List.range preds1.length).map noise)
        validate_predictions preds2 prices

/-- Mirrors `calculate_fair_price` in `create_db.py`: when a `zestimate` is
present the fair price is the unclamped average of price and zestimate,
otherwise the price itself. -/
def calculate_fair_price (price : ℚ) (zestimate : Option ℚ) : ℚ :=
  match zestimate with
  | some zest => (price + zest) / 2
  | none => price

/-- The two failure identities relevant to `PCA_Manager.convert_x_to_pca`:
the generic `ValueError` sklearn's `PCA.fit` raises when
`n_components = 90` exceeds `min(n_samples, n_features)`, and the specific
`InsufficientFeaturesError` the design calls for, which no code in the
repository defines or raises. -/
inductive PCAError where
  | sklearnValueError : PCAError
  | insufficientFeaturesError : PCAError
deriving DecidableEq

/-- Mirrors `PCA_Manager.convert_x_to_pca` in `pca_workflow.py` at the shape
level: the method performs no width validation of its own and hands the
encoded matrix straight to `PCA(n_components=90).fit_transform`, which
succeeds (returning an n_samples x 90 matrix) exactly when
`90 <= min(n_samples, n_features)` and otherwise raises sklearn's generic
`ValueError`. -/
def convert_x_to_pca (n_samples n_features : ℕ) : Except PCAError (ℕ × ℕ) :=
  if 90 ≤ min n_samples n_features then Except.ok (n_samples, 90)
  else Except.error PCAError.sklearnValueError

/-- The property-age and HOA steps of `calculate_investment_score` in
`app.py`, which run after the two guarded terms.  `if property.year_built`
is false on `None` and `0`; `not property.monthly_hoa or
property.monthly_hoa < 200` is true on `None`, `0`, or a value below 200. -/
def age_hoa_steps (p : Property) (s : ℚ) : ℚ :=
  let s3 :=
    match p.year_built with
    | some yb =>
      if yb ≠ 0 then s + 2 * (1 - min ((2023 - (yb : ℚ)) / 100) 1) else s
    | none => s
  match p.monthly_hoa with
  | none => s3 + 1
  | some hoa => if hoa = 0 ∨ hoa < 200 then s3 + 1 else s3

/-- Mirrors `calculate_investment_score` in `app.py`.  The cap-rate term
multiplies `rent_estimate` by 12 and the appreciation term subtracts
`price` from `zestimate` with no missing-value guard, so when `price > 0`
a missing `rent_estimate` or `zestimate` raises a `TypeError`
(`None` does not support arithmetic), modelled as `Except.error`. -/
def calculate_investment_score (p : Property) : Except String ℚ :=
  if 0 < p.price then
    match p.rent_estimate with
    | none => Except.error "TypeError"
    | some rent =>
      let cap_rate := rent * 12 / p.price
      let s1 : ℚ := 0 + min (cap_rate * 40) 4
      match p.zestimate with
      | none => Except.error "TypeError"
      | some zest =>
        let appreciation := (zest - p.price) / p.price
        let s2 := s1 + min (appreciation * 10) 3
        Except.ok (age_hoa_steps p s2)
  else Except.ok (age_hoa_steps p 0)

/-- The ROI-score formula as the specification words it: 0 when
rent_estimate or price is missing or zero, else the capped
`min(10, rent_estimate x 12 x 0.6 / price x 100)`.  Written from the spec
to be compared with `calculate_roi_score`, which is written from the
source. -/
def roi_score_spec (p : Property) : ℚ :=
  match p.rent_estimate with
  | none => 0
  | some rent =>
    if rent = 0 ∨ p.price = 0 then 0
    else min 10 (rent * 12 * (6/10) / p.price * 100)

/-- The condition-score formula exactly as the claim words it: 5.0 only when
`year_built` is missing (`none`); otherwise the age formula applies, taking
the mean with the clipped zestimate/price factor whenever a zestimate is
present.  Written from the claim to be compared with
`calculate_condition_score`. -/
def condition_score_claimed (p : Property) : ℚ :=
  match p.year_built with
  | none => 5
  | some yb =>
    let age : ℚ := 2024 - (yb : ℚ)
    let age_score := max 0 (10 - age / 10)
    match p.zestimate with
    | some zest => (age_score + 10 * clip (zest / p.price) (8/10) (12/10)) / 2
    | none => age_score

/-- The condition-score formula as amended: Python truthiness makes the
source treat a zero `year_built`, a zero `zestimate`, and a zero `price`
the same as missing ones. -/
def condition_score_amended (p : Property) : ℚ :=
  match p.year_built with
  | none => 5
  | some yb =>
    if yb = 0 then 5
    else
      let age : ℚ := 2024 - (yb : ℚ)
      let age_score := max 0 (10 - age / 10)
      match p.zestimate with
      | some zest =>
        if zest ≠ 0 ∧ p.price ≠ 0 then
          (age_score + 10 * clip (zest / p.price) (8/10) (12/10)) / 2
        else age_score
      | none => age_score

/-- The end-to-end scenario record of the spec: price 500000, zestimate
520000, monthly rent 2500, built 2000, property type "SINGLE FAMILY" (the
normalized upper-case form the ingestion stage stores). -/
def r2 : Property :=
  mkProperty 500000 "SINGLE FAMILY" (some 2000) (some 520000) (some 2500) none

/-- A record whose `year_built` is the integer 0 (present but falsy in
Python) and whose `zestimate` is missing. -/
def r6 : Property := mkProperty 100 "SINGLE FAMILY" (some 0) none none none

/-- A Land record with no zestimate. -/
def r7 : Property := mkProperty 250000 "Land" none none none none

/-- A record with relative price-zestimate gap 0.22 and a property type that
does hit the title-case vacancy table (vacancy risk 8). -/
def r9 : Property := mkProperty 100 "Single Family" none (some 122) none none

/-- A record with zestimate three times the price and a property type
missing from the vacancy table (default 5). -/
def r9b : Property :=
  mkProperty 100 "Unmapped Type" none (some 300) none none

/-- A record with positive price and no rent_estimate. -/
def r10 : Property := mkProperty 100 "CONDO" none none none none

lemma clip_bounds (x q : ℚ) (hq : 0 < q) :
    q * (1/2) ≤ clip x (q * (1/2)) (q * (3/2)) ∧
    clip x (q * (1/2)) (q * (3/2)) ≤ q * (3/2) := by
  unfold clip
  exact ⟨le_min (by linarith) (le_max_left _ _), min_le_left _ _⟩

lemma zipWith_clip_forall₂ (preds : List ℚ) : ∀ (prices : List ℚ),
    preds.length = prices.length → (∀ q ∈ prices, 0 < q) →
    List.Forall₂ (fun fp q => q * (1/2) ≤ fp ∧ fp ≤ q * (3/2))
      (List.zipWith (fun pred price => clip pred (price * (1/2)) (price * (3/2)))
        preds prices) prices := by
  induction preds with
  | nil =>
    intro prices h _
    cases prices with
    | nil => exact List.Forall₂.nil
    | cons b bs => simp at h
  | cons a as ih =>
    intro prices h hpos
    cases prices with
    | nil => simp at h
    | cons b bs =>
      refine List.Forall₂.cons (clip_bounds a b (hpos b (by simp))) ?_
      exact ih bs (by simpa using h) (fun q hq => hpos q (by simp [hq]))

lemma validate_predictions_forall₂ (preds prices : List ℚ)
    (h : preds.length = prices.length) (hpos : ∀ q ∈ prices, 0 < q) :
    List.Forall₂ (fun fp q => q * (1/2) ≤ fp ∧ fp ≤ q * (3/2))
      (validate_predictions preds prices) prices := by
  unfold validate_predictions
  rw [if_neg (by simp [h])]
  exact zipWith_clip_forall₂ preds prices h hpos

lemma prices_self_bound (prices : List ℚ) (hpos : ∀ q ∈ prices, 0 < q) :
    List.Forall₂ (fun fp q => q * (1/2) ≤ fp ∧ fp ≤ q * (3/2)) prices prices :=
  List.forall₂_same.mpr
    (fun q hq => ⟨by linarith [hpos q hq], by linarith [hpos q hq]⟩)

/-- Claim C1 (counterexample): the fair price computed by create_db.py for a
record with price 100000 and zestimate 500000 is 300000, which is not
within 1.5 times the price, so the bound does not hold for every stage of
the system that produces a fair_price. -/
theorem c1_counterexample :
    calculate_fair_price 100000 (some 500000) = 300000 ∧
    ¬ calculate_fair_price 100000 (some 500000) ≤ (3/2) * 100000 := by
  norm_num [calculate_fair_price]

/-- Claim C1 (amended): every fair_price produced by the predictor
(`predict_fair_price`, including every fallback path) lies in
[0.5 x price, 1.5 x price] for positive prices, the clamp being applied
last; the ingestion-time fair price of create_db.py is not subject to this
bound. -/
theorem c1_predictor_bound (model : Option (Except String (List ℚ)))
    (noise : ℕ → ℚ) (prices : List ℚ) (hpos : ∀ q ∈ prices, 0 < q) :
    List.Forall₂ (fun fp q => q * (1/2) ≤ fp ∧ fp ≤ q * (3/2))
      (predict_fair_price model noise prices) prices := by
  unfold predict_fair_price
  cases model with
  | none => exact prices_self_bound prices hpos
  | some raw =>
    cases raw with
    | error e => exact prices_self_bound prices hpos
    | ok predictions =>
      dsimp only
      by_cases hlen : predictions.length = prices.length
      · rw [if_neg (by simp [hlen])]
        apply validate_predictions_forall₂ _ _ _ hpos
        simp [hlen]
      · rw [if_pos hlen]
        exact prices_self_bound prices hpos

/-- Witness for C1 at a concrete batch. -/
theorem c1_predictor_bound_witness :
    List.Forall₂ (fun fp q => q * (1/2) ≤ fp ∧ fp ≤ q * (3/2))
      (predict_fair_price (some (Except.ok [400])) (fun _ => 1) [100]) [100] :=
  c1_predictor_bound _ _ _ (by norm_num)

/-- Claim C3: when the model failed to load, or any stage of the pipeline
throws, or the internal length check raises its ValueError,
predict_fair_price returns exactly the input price array, and it is a total
function (never raises). -/
theorem c3_fallback_identity (noise : ℕ → ℚ) (prices : List ℚ) :
    predict_fair_price none noise prices = prices ∧
    (∀ e, predict_fair_price (some (Except.error e)) noise prices = prices) ∧
    (∀ predictions, predictions.length ≠ prices.length →
      predict_fair_price (some (Except.ok predictions)) noise prices = prices) := by
  refine ⟨rfl, fun e => rfl, fun predictions h => ?_⟩
  unfold predict_fair_price
  dsimp only
  rw [if_pos h]

/-- Witness for C3 at concrete batches. -/
theorem c3_fallback_identity_witness :
    predict_fair_price none (fun _ => 1) [100] = [100] ∧
    predict_fair_price (some (Except.error "ValueError")) (fun _ => 1) [100] = [100] ∧
    predict_fair_price (some (Except.ok [1, 2])) (fun _ => 1) [100] = [100] :=
  ⟨(c3_fallback_identity _ _).1, (c3_fallback_identity _ _).2.1 _,
    (c3_fallback_identity _ _).2.2 [1, 2] (by norm_num)⟩

/-- Claim C2 (counterexample): for the end-to-end scenario record the
normalized upper-case property type "SINGLE FAMILY" misses every title-case
key of the vacancy table, so the risk score is mean(6, 5, 6) = 17/3, not
the claimed mean(6, 8, 6) = 20/3, and the total score is 874/15, well below
the claimed 59.77. -/
theorem c2_counterexample :
    (score_property r2).risk_score = 17/3 ∧
    ¬ (score_property r2).risk_score = 20/3 ∧
    (score_property r2).total_score = 874/15 ∧
    (score_property r2).total_score < 59 := by
  have h1 : (score_property r2).risk_score = 17/3 := by
    simp [score_property, calculate_risk_score, r2, mkProperty, vacancy_risk, mean]
    norm_num
  have h2 : (score_property r2).total_score = 874/15 := by
    simp [score_property, calculate_roi_score, calculate_location_score,
      calculate_condition_score, calculate_market_score, calculate_risk_score,
      r2, mkProperty, vacancy_risk, mean]
    norm_num
  exact ⟨h1, by rw [h1]; norm_num, h2, by rw [h2]; norm_num⟩

/-- Claim C2 (amended): for the scenario record, roi_score is 3.6,
condition_score is 9, location and market are the constants 7 and 6, but
the vacancy lookup falls to its default 5 (the record's property type
"SINGLE FAMILY" does not match the title-case key), so risk_score is
17/3 = 5.667 and total_score is 874/15 = 58.267. -/
theorem c2_scenario_scores :
    (score_property r2).roi_score = 18/5 ∧
    (score_property r2).location_score = 7 ∧
    (score_property r2).condition_score = 9 ∧
    (score_property r2).market_score = 6 ∧
    (score_property r2).risk_score = 17/3 ∧
    (score_property r2).total_score = 874/15 := by
  refine ⟨?_, ?_, ?_, ?_, ?_, ?_⟩ <;>
    simp [score_property, calculate_roi_score, calculate_location_score,
      calculate_condition_score, calculate_market_score, calculate_risk_score,
      r2, mkProperty, vacancy_risk, mean] <;>
    norm_num

/-- Claim C4 (code evaluation): on an input whose encoded width is below 90
the reducer fails with sklearn's generic ValueError, and no input ever
produces the specific InsufficientFeaturesError the design requires; the
class does not exist in the repository. -/
theorem c4_no_insufficient_features_error :
    convert_x_to_pca 100 10 = Except.error PCAError.sklearnValueError ∧
    ∀ n_samples n_features,
      convert_x_to_pca n_samples n_features ≠
        Except.error PCAError.insufficientFeaturesError := by
  constructor
  · norm_num [convert_x_to_pca]
  · intro n m
    unfold convert_x_to_pca
    split_ifs with h
    · simp
    · simp

/-- Claim C5: calculate_roi_score returns 0 when rent_estimate or price is
missing or zero, and otherwise min(10, rent x 12 x 0.6 / price x 100); the
source's 40-percent operating-expense deduction equals the spec's 0.6
factor. -/
theorem c5_roi_refines (p : Property) :
    calculate_roi_score p = roi_score_spec p := by
  unfold calculate_roi_score roi_score_spec
  cases p.rent_estimate with
  | none => rfl
  | some rent =>
    dsimp only
    split_ifs with h
    · rfl
    · congr 1
      ring

/-- Claim C6 (counterexample): a record whose year_built is the integer 0 is
not missing, yet the source returns 5.0 for it (Python truthiness), while
the claimed formula yields the age score max(0, 10 - 2024/10) = 0. -/
theorem c6_counterexample :
    calculate_condition_score r6 = 5 ∧
    condition_score_claimed r6 = 0 ∧
    calculate_condition_score r6 ≠ condition_score_claimed r6 := by
  have h1 : calculate_condition_score r6 = 5 := by
    norm_num [calculate_condition_score, r6, mkProperty]
  have h2 : condition_score_claimed r6 = 0 := by
    simp [condition_score_claimed, r6, mkProperty]
    norm_num
  exact ⟨h1, h2, by rw [h1, h2]; norm_num⟩

/-- Claim C6 (amended): calculate_condition_score returns 5.0 when
year_built is missing or zero; otherwise it returns the mean of the age
score and the clipped zestimate/price factor when zestimate and price are
both present and nonzero, and the age score alone otherwise. -/
theorem c6_condition_refines (p : Property) :
    calculate_condition_score p = condition_score_amended p := by
  unfold calculate_condition_score condition_score_amended clip
  cases p.year_built with
  | none => rfl
  | some yb =>
    dsimp only
    split_ifs with h0
    · rfl
    · cases p.zestimate with
      | none => rfl
      | some zest =>
        dsimp only
        split_ifs with hz
        · simp [mean]
        · rfl

/-- Claim C7: a record whose property type is "Land" with no zestimate gets
only the vacancy factor 3 and the market factor 6, so its risk score is
exactly mean(3, 6) = 4.5. -/
theorem c7_land_risk (p : Property) (hpt : p.property_type = "Land")
    (hz : p.zestimate = none) : calculate_risk_score p = 9/2 := by
  simp [calculate_risk_score, hz, hpt, vacancy_risk, mean]
  norm_num

/-- Witness for C7 at a concrete Land record. -/
theorem c7_land_risk_witness : calculate_risk_score r7 = 9/2 :=
  c7_land_risk r7 rfl rfl

/-- Claim C8: score_properties returns one InvestmentScore per record, and
the element at every index is score_property applied to the record at that
index; determinism is immediate since score_property is a pure function of
the record. -/
theorem c8_order_preserving (ps : List Property) (i : ℕ) :
    (score_properties ps).length = ps.length ∧
    (score_properties ps)[i]? = (ps[i]?).map score_property := by
  unfold score_properties
  exact ⟨List.length_map _ _, by simp⟩

lemma vacancy_risk_le_eight (pt : String) : vacancy_risk pt ≤ 8 := by
  unfold vacancy_risk
  split_ifs <;> norm_num

/-- Claim C9 (counterexample): the claimed threshold 0.21 is too low: a
record with relative gap 0.22 whose property type matches the "Single
Family" key (vacancy 8) has risk score mean(-12, 8, 6) = 2/3, which is not
negative. -/
theorem c9_counterexample :
    (21/100 : ℚ) < |r9.zestimate.getD 0 - r9.price| / r9.price ∧
    ¬ calculate_risk_score r9 < 0 := by
  constructor
  · norm_num [r9, mkProperty]
  · have h : calculate_risk_score r9 = 2/3 := by
      simp [calculate_risk_score, r9, mkProperty, vacancy_risk, mean]
      norm_num
    rw [h]
    norm_num

/-- Claim C9 (amended): calculate_risk_score is not bounded below by 0: for
every record with a nonzero zestimate, positive price, and relative gap
above 0.24 (enough to offset even the largest vacancy value 8), the risk
score is negative; and for the concrete record with zestimate three times
the price the total score itself is negative. -/
theorem c9_risk_unbounded :
    (∀ (p : Property) (zest : ℚ), p.zestimate = some zest → zest ≠ 0 →
      0 < p.price → 24/100 < |zest - p.price| / p.price →
      calculate_risk_score p < 0) ∧
    (score_property r9b).total_score < 0 := by
  constructor
  · intro p zest hz hz0 hp hd
    have hv := vacancy_risk_le_eight p.property_type
    have hfact : calculate_risk_score p =
        (10 - |zest - p.price| / p.price * 100 +
          (vacancy_risk p.property_type + 6)) / 3 := by
      simp [calculate_risk_score, hz, hz0, ne_of_gt hp, mean]
    rw [hfact]
    apply div_neg_of_neg_of_pos _ (by norm_num)
    linarith
  · have h : (score_property r9b).total_score = -77/3 := by
      simp [score_property, calculate_roi_score, calculate_location_score,
        calculate_condition_score, calculate_market_score, calculate_risk_score,
        r9b, mkProperty, vacancy_risk, mean]
      norm_num
    rw [h]
    norm_num

/-- Witness for C9 at the concrete extreme record. -/
theorem c9_risk_unbounded_witness : calculate_risk_score r9b < 0 :=
  c9_risk_unbounded.1 r9b 300 rfl (by norm_num)
    (by norm_num [r9b, mkProperty]) (by norm_num [r9b, mkProperty])

/-- Claim C10: with a positive price, a missing rent_estimate or missing
zestimate makes calculate_investment_score raise a TypeError, and the
function returns a score exactly when a positive price comes with both
attributes present. -/
theorem c10_type_error (p : Property) :
    (0 < p.price → p.rent_estimate = none ∨ p.zestimate = none →
      calculate_investment_score p = Except.error "TypeError") ∧
    ((0 < p.price → p.rent_estimate ≠ none ∧ p.zestimate ≠ none) →
      ∃ v, calculate_investment_score p = Except.ok v) := by
  constructor
  · intro hp hmiss
    unfold calculate_investment_score
    rw [if_pos hp]
    cases hr : p.rent_estimate with
    | none => rfl
    | some rent =>
      cases hz : p.zestimate with
      | none => rfl
      | some zest =>
        rcases hmiss with h | h
        · rw [hr] at h
          exact absurd h (by simp)
        · rw [hz] at h
          exact absurd h (by simp)
  · intro htot
    unfold calculate_investment_score
    by_cases hp : 0 < p.price
    · rw [if_pos hp]
      obtain ⟨hrent, hzest⟩ := htot hp
      cases hr : p.rent_estimate with
      | none => exact absurd hr hrent
      | some rent =>
        cases hz : p.zestimate with
        | none => exact absurd hz hzest
        | some zest => exact ⟨_, rfl⟩
    · rw [if_neg hp]
      exact ⟨_, rfl⟩

/-- Witness for C10 at a concrete record with price 100 and no rent
estimate. -/
theorem c10_type_error_witness :
    calculate_investment_score r10 = Except.error "TypeError" :=
  (c10_type_error r10).1 (by norm_num [r10, mkProperty]) (Or.inl rfl)
